import Mathlib

/-!
# Verification of the cricket trajectory physics core

Shallow embedding of the physics engine of this repository
(`src/services/physics.ts` and the synthetic-trajectory generator of
`src/components/TrajectoryView.tsx`) over exact rational arithmetic,
together with proofs settling the frozen specification claims.

JavaScript numbers are modelled by `ℚ` (the claims under scrutiny are about
exact-arithmetic behaviour); the one place where IEEE special values are
behaviourally relevant — NaN propagation through `reconstruct3D`, and the
`0/0` that `checkWicketImpact` reaches on a degenerate segment — is modelled
explicitly and documented at the definition site.
-/

namespace Cricket

/-- Source: `export const PITCH_LENGTH = 20.12`. -/
def PITCH_LENGTH : ℚ := 20.12

/-- Source: `export const STUMP_HEIGHT = 0.711`. -/
def STUMP_HEIGHT : ℚ := 0.711

/-- Source: `export const STUMP_WIDTH = 0.2286`. -/
def STUMP_WIDTH : ℚ := 0.2286

/-- Source: `export const STUMP_RADIUS = 0.019`. -/
def STUMP_RADIUS : ℚ := 0.019

/-- Source: `export const BAIL_HEIGHT = 0.013`. -/
def BAIL_HEIGHT : ℚ := 0.013

/-- Source: `export const GRAVITY = 9.81`. -/
def GRAVITY : ℚ := 9.81

/-- Source: `interface Vector3D { x; y; z }` (lateral, vertical, longitudinal). -/
structure Vector3D where
  x : ℚ
  y : ℚ
  z : ℚ
deriving DecidableEq, Repr

/-- Source: `interface TrajectoryPoint extends Vector3D { t; velocity? }`.
The optional `velocity` field is never written or read by any of the
functions embedded here (`predictTrajectory`, `checkWicketImpact`, the
synthetic generator), so it is omitted. -/
structure TrajectoryPoint where
  x : ℚ
  y : ℚ
  z : ℚ
  t : ℚ
deriving DecidableEq, Repr

instance : Inhabited TrajectoryPoint := ⟨⟨0, 0, 0, 0⟩⟩

/-! ## Trajectory Predictor (`predictTrajectory`, physics.ts lines 65-109) -/

/-- The mutable loop state of `predictTrajectory`'s `while` loop:
`currentTime`, `currX`, `currY`, `currZ`, `currVy`
(`vx` and `vz` are loop constants and are passed separately). -/
structure PredState where
  t : ℚ
  x : ℚ
  y : ℚ
  z : ℚ
  vy : ℚ
deriving DecidableEq, Repr

/-- One iteration of the `while` body of `predictTrajectory`
(physics.ts lines 89-103): advance time, integrate `x`/`z` linearly,
integrate `y` under gravity (semi-implicit: velocity first), then the bounce
branch `if (currY < 0) { currY = -currY * 0.6; currVy = -currVy * 0.6; }`. -/
def predictStep (vx vz step : ℚ) (s : PredState) : PredState :=
  let t1 := s.t + step
  let x1 := s.x + vx * step
  let z1 := s.z + vz * step
  let vy1 := s.vy - GRAVITY * step
  let yRaw := s.y + vy1 * step
  if yRaw < 0 then ⟨t1, x1, -yRaw * 0.6, z1, -vy1 * 0.6⟩
  else ⟨t1, x1, yRaw, z1, vy1⟩

/-- The sample pushed at the end of a loop iteration:
`predictions.push({ x: currX, y: currY, z: currZ, t: currentTime })`. -/
def PredState.toPoint (s : PredState) : TrajectoryPoint := ⟨s.x, s.y, s.z, s.t⟩

/-- The `while (currentTime < last.t + predictionTime && currZ < PITCH_LENGTH + 2)`
loop of `predictTrajectory`.  `tLimit` is the loop constant
`last.t + predictionTime`.  The loop is driven by a fuel counter so that the
Lean function is total; `predictFuel` below supplies enough fuel that, for a
positive `step`, the loop always exits because its guard turned false, never
because fuel ran out (the guard admits at most `⌈predictionTime / step⌉`
iterations, since the time coordinate grows by `step` each round). -/
def predictLoop (vx vz step tLimit : ℚ) : ℕ → PredState → List TrajectoryPoint
  | 0, _ => []
  | n + 1, s =>
    if s.t < tLimit ∧ s.z < PITCH_LENGTH + 2 then
      (predictStep vx vz step s).toPoint ::
        predictLoop vx vz step tLimit n (predictStep vx vz step s)
    else []

/-- Fuel bound for `predictLoop`: one more than `⌈predictionTime / step⌉`.
For `0 < step`, the loop guard `currentTime < last.t + predictionTime` holds
at the start of iteration `k` only if `k * step < predictionTime`, i.e.
`k ≤ ⌈predictionTime / step⌉`, so this fuel is never exhausted. -/
def predictFuel (predictionTime step : ℚ) : ℕ :=
  (⌈predictionTime / step⌉).toNat + 1

/-- Source: `predictTrajectory(points, predictionTime = 1.0, step = 0.05)`,
physics.ts lines 65-109.  Guard `if (points.length < 2) return [];`; velocity
is the finite difference of the last two samples; then the integration loop. -/
def predictTrajectory (points : List TrajectoryPoint)
    (predictionTime : ℚ := 1) (step : ℚ := 0.05) : List TrajectoryPoint :=
  if points.length < 2 then []
  else
    let last := points.getD (points.length - 1) default
    let prev := points.getD (points.length - 2) default
    let dt := last.t - prev.t
    let vx := (last.x - prev.x) / dt
    let vy := (last.y - prev.y) / dt
    let vz := (last.z - prev.z) / dt
    predictLoop vx vz step (last.t + predictionTime) (predictFuel predictionTime step)
      ⟨last.t, last.x, last.y, last.z, vy⟩

/-! ## Impact Resolver (`checkWicketImpact`, physics.ts lines 114-158) -/

/-- The `partHit` values of `checkWicketImpact`'s result type:
`'off' | 'middle' | 'leg' | 'bails' | 'none'`. -/
inductive PartHit where
  | off
  | middle
  | leg
  | bails
  | none
deriving DecidableEq, Repr

/-- The result record of `checkWicketImpact`:
`{ isHit: boolean; impactPoint?: Vector3D; partHit?: ... }`.
The source either returns `{ isHit: false, partHit: 'none' }` (no
`impactPoint`) or sets all three fields, so `impactPoint` is an `Option`. -/
structure ImpactResult where
  isHit : Bool
  impactPoint : Option Vector3D
  partHit : PartHit
deriving DecidableEq, Repr

/-- Source, physics.ts line 125:
`const ratio = Math.abs(PITCH_LENGTH - p1.z) / Math.abs(p2.z - p1.z)`.
Lifted out of the loop body as a function of the segment endpoints. -/
def interpRatio (p1 p2 : TrajectoryPoint) : ℚ :=
  |PITCH_LENGTH - p1.z| / |p2.z - p1.z|

/-- Source, physics.ts line 126:
`const impactX = p1.x + (p2.x - p1.x) * ratio`. -/
def interpX (p1 p2 : TrajectoryPoint) : ℚ :=
  p1.x + (p2.x - p1.x) * interpRatio p1 p2

/-- Source, physics.ts line 127:
`const impactY = p1.y + (p2.y - p1.y) * ratio`. -/
def interpY (p1 p2 : TrajectoryPoint) : ℚ :=
  p1.y + (p2.y - p1.y) * interpRatio p1 p2

/-- Source, physics.ts line 139: `const offStumpX = STUMP_WIDTH / 2`. -/
def offStumpX : ℚ := STUMP_WIDTH / 2

/-- Source, physics.ts line 140: `const legStumpX = -STUMP_WIDTH / 2`. -/
def legStumpX : ℚ := -(STUMP_WIDTH / 2)

/-- The body of one iteration of `checkWicketImpact`'s `for` loop over the
consecutive pair `(p1, p2)` (physics.ts lines 123-154): `some` result exactly
when the source's early `return` fires on this segment, `none` when the loop
moves on to the next segment.

The crossing test is the source's
`(p1.z <= PITCH_LENGTH && p2.z >= PITCH_LENGTH) || (p1.z >= PITCH_LENGTH && p2.z <= PITCH_LENGTH)`.

Degenerate segments: the source then computes
`ratio = Math.abs(PITCH_LENGTH - p1.z) / Math.abs(p2.z - p1.z)` unguarded.
When `p1.z = p2.z` (which, inside the crossing branch, forces both to equal
`PITCH_LENGTH`), this is the IEEE quotient `0 / 0 = NaN`; `impactX` and
`impactY` are then `NaN`, every subsequent `<=`/`>=` comparison on them is
false, so `inWidth && inHeight` is false and the loop simply continues.  The
explicit `p2.z - p1.z = 0` branch below encodes exactly that observable
behaviour (no hit on this segment) over `ℚ`, where division is total and
would otherwise misrepresent `0 / 0` as `0`. -/
def segmentImpact (p1 p2 : TrajectoryPoint) : Option (Vector3D × PartHit) :=
  if (p1.z ≤ PITCH_LENGTH ∧ PITCH_LENGTH ≤ p2.z) ∨
      (PITCH_LENGTH ≤ p1.z ∧ p2.z ≤ PITCH_LENGTH) then
    if p2.z - p1.z = 0 then Option.none
    else
      if |interpX p1 p2| ≤ STUMP_WIDTH / 2 + STUMP_RADIUS ∧
          (0 ≤ interpY p1 p2 ∧ interpY p1 p2 ≤ STUMP_HEIGHT + BAIL_HEIGHT) then
        some (⟨interpX p1 p2, interpY p1 p2, PITCH_LENGTH⟩,
          if STUMP_HEIGHT < interpY p1 p2 then PartHit.bails
          else if |interpX p1 p2 - offStumpX| ≤ STUMP_RADIUS * 1.5 then PartHit.off
          else if |interpX p1 p2 - legStumpX| ≤ STUMP_RADIUS * 1.5 then PartHit.leg
          else if |interpX p1 p2| ≤ STUMP_RADIUS * 1.5 then PartHit.middle
          else PartHit.middle)
      else Option.none
  else Option.none

/-- The `for (let i = 0; i < points.length - 1; i++)` scan of
`checkWicketImpact`, expressed as structural recursion over consecutive
pairs: the first segment on which `segmentImpact` fires (the source's early
`return`) supplies the result; otherwise scanning continues. -/
def scanImpact : List TrajectoryPoint → Option (Vector3D × PartHit)
  | p1 :: p2 :: rest =>
    match segmentImpact p1 p2 with
    | some r => some r
    | Option.none => scanImpact (p2 :: rest)
  | _ => Option.none

/-- Source: `checkWicketImpact(points)`, physics.ts lines 114-158. -/
def checkWicketImpact (points : List TrajectoryPoint) : ImpactResult :=
  match scanImpact points with
  | some (pt, part) => ⟨true, some pt, part⟩
  | Option.none => ⟨false, Option.none, PartHit.none⟩

/-! ## Synthetic full-trajectory generator
(`generateSimulatedData`, TrajectoryView.tsx lines 767-826, the
deterministic branch in which an upstream `AnalysisResult` is supplied;
the fallback branch draws on `Math.random()` and is outside the claims). -/

/-- The mutable loop state of `generateSimulatedData`'s `for` loop:
the frame index `i` (the source computes `t = i * dt` afresh each frame)
and `x`, `y`, `z`, `vy` (`vx`, `vz` are loop constants). -/
structure SimState where
  i : ℕ
  x : ℚ
  y : ℚ
  z : ℚ
  vy : ℚ
deriving DecidableEq, Repr

/-- The update half of one `generateSimulatedData` frame
(TrajectoryView.tsx lines 795-808), run after the current point is pushed:
`x += vx*dt; z += vz*dt; y += vy*dt;` (position uses the pre-decrement
velocity), then `vy -= 9.81*dt;`, then the bounce branch
`if (y < 0 && z < PITCH_LENGTH) { y = 0; vy = -vy * 0.75; }`
(clamp to the ground, not a reflection, and only before the pitch end). -/
def simStep (vx vz dt : ℚ) (s : SimState) : SimState :=
  let x1 := s.x + vx * dt
  let z1 := s.z + vz * dt
  let y1 := s.y + s.vy * dt
  let vy1 := s.vy - 9.81 * dt
  if y1 < 0 ∧ z1 < PITCH_LENGTH then ⟨s.i + 1, x1, 0, z1, -vy1 * 0.75⟩
  else ⟨s.i + 1, x1, y1, z1, vy1⟩

/-- The `for (let i = 0; i <= frames; i++)` loop of `generateSimulatedData`:
push `{x, y, z, t: i*dt}`, then update.  Driven by the exact iteration count
(`frames + 1`), so no guard is needed. -/
def simLoop (vx vz dt : ℚ) : ℕ → SimState → List TrajectoryPoint
  | 0, _ => []
  | n + 1, s => ⟨s.x, s.y, s.z, (s.i : ℚ) * dt⟩ :: simLoop vx vz dt n (simStep vx vz dt s)

/-- Source: `generateSimulatedData(analysis)`, TrajectoryView.tsx lines
767-826, restricted to its trajectory construction with an analysis present:
`duration = PITCH_LENGTH / (speedKmh / 3.6)`, `frames = 60`,
`dt = duration / frames`, start `x = pitch.x * 0.5`, `y = 2.2`, `z = 0`,
`targetX = impact.x`, `vz = PITCH_LENGTH / duration`,
`vx = (targetX - x) / duration`, `tBounce = pitch.z / vz`,
`vy = (0.5 * 9.81 * tBounce² - 2.2) / tBounce`, then the frame loop. -/
def generateSimulatedData (speedKmh pitchX pitchZ targetX : ℚ) : List TrajectoryPoint :=
  let duration := PITCH_LENGTH / (speedKmh / 3.6)
  let frames : ℕ := 60
  let dt := duration / (frames : ℚ)
  let x0 := pitchX * 0.5
  let vz := PITCH_LENGTH / duration
  let vx := (targetX - x0) / duration
  let tBounce := pitchZ / vz
  let vy0 := (0.5 * 9.81 * tBounce * tBounce - 2.2) / tBounce
  simLoop vx vz dt (frames + 1) ⟨0, x0, 2.2, 0, vy0⟩

/-! ## Position Estimator (`reconstruct3D`, physics.ts lines 37-60)

The claim about `reconstruct3D` concerns IEEE non-finite inputs, so the
embedding tracks NaN explicitly: a number is `some q` (finite, value `q`)
or `Option.none` (NaN).  Every IEEE arithmetic operation with a NaN operand
returns NaN, which is exactly the propagation encoded below; division by
zero (which IEEE sends to `±∞` or NaN, in either case non-finite) is also
sent to `Option.none`, though no theorem below exercises that case. -/

/-- A JavaScript number that may be NaN: `Option.none` models NaN. -/
abbrev FP := Option ℚ

/-- IEEE addition with NaN propagation. -/
def fadd : FP → FP → FP
  | Option.none, _ => Option.none
  | _, Option.none => Option.none
  | some a, some b => some (a + b)

/-- IEEE subtraction with NaN propagation. -/
def fsub : FP → FP → FP
  | Option.none, _ => Option.none
  | _, Option.none => Option.none
  | some a, some b => some (a - b)

/-- IEEE multiplication with NaN propagation. -/
def fmul : FP → FP → FP
  | Option.none, _ => Option.none
  | _, Option.none => Option.none
  | some a, some b => some (a * b)

/-- IEEE division with NaN propagation; a zero divisor also yields a
non-finite result. -/
def fdiv : FP → FP → FP
  | Option.none, _ => Option.none
  | _, Option.none => Option.none
  | some a, some b => if b = 0 then Option.none else some (a / b)

/-- A `TrajectoryPoint` with possibly-NaN components, the return shape of the
NaN-tracking `reconstruct3D` (its `velocity` field is again never set). -/
structure TrajectoryPointFP where
  x : FP
  y : FP
  z : FP
  t : FP
deriving DecidableEq, Repr

/-- Source: `reconstruct3D(pixelX, pixelY, frameWidth, frameHeight, time)`,
physics.ts lines 37-60, transcribed operation by operation:
`nx = (pixelX / frameWidth) * 2 - 1`, `ny = 1 - (pixelY / frameHeight) * 2`,
`z = (time / 0.5) * PITCH_LENGTH`, `x = nx * (z * 0.1)`,
`y = (ny + 0.5) * 2`, returning `{ x, y, z, t: time }`.  The source contains
no validation and no conditional: it returns on every input. -/
def reconstruct3D (pixelX pixelY frameWidth frameHeight time : FP) : TrajectoryPointFP :=
  let nx := fsub (fmul (fdiv pixelX frameWidth) (some 2)) (some 1)
  let ny := fsub (some 1) (fmul (fdiv pixelY frameHeight) (some 2))
  let z := fmul (fdiv time (some 0.5)) (some PITCH_LENGTH)
  let x := fmul nx (fmul z (some 0.1))
  let y := fmul (fadd ny (some 0.5)) (some 2)
  { x := x, y := y, z := z, t := time }

/-! ## Specification-side predicates

These transcribe the wording of the spec / claims (not the source) and are
used to compare the implementation's scan against the spec's description. -/

/-- Spec wording (claim C1): one endpoint's `z` is ≤ the target plane and
the other's is ≥ it, in either direction. -/
def crossesPlane (p1 p2 : TrajectoryPoint) : Prop :=
  (p1.z ≤ PITCH_LENGTH ∧ PITCH_LENGTH ≤ p2.z) ∨
    (PITCH_LENGTH ≤ p1.z ∧ p2.z ≤ PITCH_LENGTH)

instance (p1 p2 : TrajectoryPoint) : Decidable (crossesPlane p1 p2) := by
  unfold crossesPlane; infer_instance

/-- Spec wording (claim C1): the hit test on the interpolated crossing
coordinates — lateral coordinate within the target half-width expanded by
the element radius, vertical coordinate between ground and the top of the
target-plus-clearance band. -/
def hitTest (x y : ℚ) : Prop :=
  |x| ≤ STUMP_WIDTH / 2 + STUMP_RADIUS ∧ (0 ≤ y ∧ y ≤ STUMP_HEIGHT + BAIL_HEIGHT)

instance (x y : ℚ) : Decidable (hitTest x y) := by
  unfold hitTest; infer_instance

/-- A consecutive segment on which the resolver's early return fires,
described in the spec's vocabulary: it straddles the plane, is
non-degenerate in `z`, and its linearly interpolated crossing point passes
the hit test. -/
def specPasses (p1 p2 : TrajectoryPoint) : Prop :=
  crossesPlane p1 p2 ∧ p1.z ≠ p2.z ∧ hitTest (interpX p1 p2) (interpY p1 p2)

instance (p1 p2 : TrajectoryPoint) : Decidable (specPasses p1 p2) := by
  unfold specPasses; infer_instance

/-- Modelled from the spec's zone-classification wording (claim C7), for
comparison with the implementation: if the vertical position exceeds the
physical target height, the Top zone (`bails`); otherwise lateral proximity
to the right (`off`) edge, then the left (`leg`) edge, within the fixed
tolerance `STUMP_RADIUS * 1.5`; a point within tolerance of the centerline
and a point near no reference line both classify as Center (`middle`). -/
def zoneSpec (x y : ℚ) : PartHit :=
  if STUMP_HEIGHT < y then PartHit.bails
  else if |x - offStumpX| ≤ STUMP_RADIUS * 1.5 then PartHit.off
  else if |x - legStumpX| ≤ STUMP_RADIUS * 1.5 then PartHit.leg
  else PartHit.middle

/-! ## Helper lemmas about the predictor loop -/

/-- Each predictor step advances the time coordinate by exactly `step`. -/
theorem predictStep_t (vx vz step : ℚ) (s : PredState) :
    (predictStep vx vz step s).t = s.t + step := by
  unfold predictStep
  dsimp only
  split <;> rfl

/-- Each predictor step leaves a non-negative height: the bounce branch
reflects a negative integrated height to a positive one. -/
theorem predictStep_y_nonneg (vx vz step : ℚ) (s : PredState) :
    0 ≤ (predictStep vx vz step s).y := by
  unfold predictStep
  dsimp only
  split
  next h => exact mul_nonneg (by linarith) (by norm_num)
  next h => simpa using not_lt.mp h

/-- Every sample emitted by the predictor loop is strictly later than the
state it started from (for a positive step size). -/
theorem predictLoop_mem_t {vx vz step tLimit : ℚ} (hstep : 0 < step) :
    ∀ (n : ℕ) (s : PredState), ∀ q ∈ predictLoop vx vz step tLimit n s, s.t < q.t := by
  intro n
  induction n with
  | zero => intro s q hq; simp [predictLoop] at hq
  | succ n ih =>
    intro s q hq
    rw [predictLoop] at hq
    split at hq
    · rcases List.mem_cons.mp hq with h | h
      · have ht : (predictStep vx vz step s).toPoint.t = s.t + step := predictStep_t ..
        rw [h]
        rw [ht]
        linarith
      · have h1 := ih (predictStep vx vz step s) q h
        have ht := predictStep_t vx vz step s
        linarith
    · simp at hq

/-- The samples emitted by the predictor loop have strictly increasing
timestamps (for a positive step size). -/
theorem predictLoop_pairwise_t {vx vz step tLimit : ℚ} (hstep : 0 < step) :
    ∀ (n : ℕ) (s : PredState),
      List.Pairwise (fun a b : TrajectoryPoint => a.t < b.t)
        (predictLoop vx vz step tLimit n s) := by
  intro n
  induction n with
  | zero => intro s; simp [predictLoop]
  | succ n ih =>
    intro s
    rw [predictLoop]
    split
    · refine List.Pairwise.cons ?_ (ih (predictStep vx vz step s))
      intro b hb
      exact predictLoop_mem_t hstep n (predictStep vx vz step s) b hb
    · simp

/-- Every sample emitted by the predictor loop has non-negative height. -/
theorem predictLoop_y_nonneg (vx vz step tLimit : ℚ) :
    ∀ (n : ℕ) (s : PredState), ∀ q ∈ predictLoop vx vz step tLimit n s, 0 ≤ q.y := by
  intro n
  induction n with
  | zero => intro s q hq; simp [predictLoop] at hq
  | succ n ih =>
    intro s q hq
    rw [predictLoop] at hq
    split at hq
    · rcases List.mem_cons.mp hq with h | h
      · rw [h]
        exact predictStep_y_nonneg ..
      · exact ih (predictStep vx vz step s) q h
    · simp at hq

/-- If the predictor loop emits anything, its starting state satisfied the
loop guard. -/
theorem predictLoop_ne_nil (vx vz step tLimit : ℚ) (n : ℕ) (s : PredState)
    (h : predictLoop vx vz step tLimit n s ≠ []) :
    s.t < tLimit ∧ s.z < PITCH_LENGTH + 2 := by
  cases n with
  | zero => simp [predictLoop] at h
  | succ n =>
    rw [predictLoop] at h
    by_contra hc
    rw [if_neg hc] at h
    exact h rfl

/-- A sample of the predictor loop that is followed by another sample
satisfied the loop guard: its time was below the horizon limit and its
longitudinal position below `PITCH_LENGTH + 2`. -/
theorem predictLoop_guard (vx vz step tLimit : ℚ) :
    ∀ (n : ℕ) (s : PredState) (i : ℕ) (q : TrajectoryPoint),
      (predictLoop vx vz step tLimit n s).get? (i + 1) ≠ Option.none →
      (predictLoop vx vz step tLimit n s).get? i = some q →
      q.t < tLimit ∧ q.z < PITCH_LENGTH + 2 := by
  intro n
  induction n with
  | zero => intro s i q h1 _; simp [predictLoop] at h1
  | succ n ih =>
    intro s i q h1 h2
    by_cases hg : s.t < tLimit ∧ s.z < PITCH_LENGTH + 2
    · rw [predictLoop, if_pos hg] at h1 h2
      cases i with
      | zero =>
        rw [List.get?_cons_zero] at h2
        have hq : q = (predictStep vx vz step s).toPoint := (Option.some.inj h2).symm
        have hrest : predictLoop vx vz step tLimit n (predictStep vx vz step s) ≠ [] := by
          intro he
          rw [List.get?_cons_succ, he] at h1
          simp at h1
        have := predictLoop_ne_nil vx vz step tLimit n (predictStep vx vz step s) hrest
        rw [hq]
        exact this
      | succ i =>
        rw [List.get?_cons_succ] at h1 h2
        exact ih (predictStep vx vz step s) i q h1 h2
    · rw [predictLoop, if_neg hg] at h2
      simp at h2

/-! ## Helper lemmas about the impact scan -/

/-- The loop body fires on a segment exactly when, in the spec's vocabulary,
the segment straddles the plane, is non-degenerate in `z`, and its
interpolated crossing point passes the hit test. -/
theorem segmentImpact_isSome_iff (p1 p2 : TrajectoryPoint) :
    (segmentImpact p1 p2).isSome = true ↔ specPasses p1 p2 := by
  by_cases hcross : (p1.z ≤ PITCH_LENGTH ∧ PITCH_LENGTH ≤ p2.z) ∨
      (PITCH_LENGTH ≤ p1.z ∧ p2.z ≤ PITCH_LENGTH)
  · by_cases hdeg : p2.z - p1.z = 0
    · have h1 : segmentImpact p1 p2 = Option.none := by
        unfold segmentImpact
        rw [if_pos hcross, if_pos hdeg]
      refine iff_of_false (by rw [h1]; simp) ?_
      intro hsp
      exact hsp.2.1 (by linarith [sub_eq_zero.mp hdeg])
    · by_cases hhit : |interpX p1 p2| ≤ STUMP_WIDTH / 2 + STUMP_RADIUS ∧
          (0 ≤ interpY p1 p2 ∧ interpY p1 p2 ≤ STUMP_HEIGHT + BAIL_HEIGHT)
      · have h1 : (segmentImpact p1 p2).isSome = true := by
          unfold segmentImpact
          rw [if_pos hcross, if_neg hdeg, if_pos hhit]
          rfl
        exact iff_of_true h1 ⟨hcross, fun he => hdeg (by rw [he, sub_self]), hhit⟩
      · have h1 : segmentImpact p1 p2 = Option.none := by
          unfold segmentImpact
          rw [if_pos hcross, if_neg hdeg, if_neg hhit]
        refine iff_of_false (by rw [h1]; simp) ?_
        intro hsp
        exact hhit hsp.2.2
  · have h1 : segmentImpact p1 p2 = Option.none := by
      unfold segmentImpact
      rw [if_neg hcross]
    refine iff_of_false (by rw [h1]; simp) ?_
    intro hsp
    exact hcross hsp.1

/-- When the loop body fires, the reported part is exactly the spec's
zone classification of the interpolated crossing point. -/
theorem segmentImpact_part_eq_zoneSpec (p1 p2 : TrajectoryPoint) (pt : Vector3D)
    (part : PartHit) (h : segmentImpact p1 p2 = some (pt, part)) :
    part = zoneSpec pt.x pt.y := by
  by_cases hcross : (p1.z ≤ PITCH_LENGTH ∧ PITCH_LENGTH ≤ p2.z) ∨
      (PITCH_LENGTH ≤ p1.z ∧ p2.z ≤ PITCH_LENGTH)
  · by_cases hdeg : p2.z - p1.z = 0
    · exfalso
      unfold segmentImpact at h
      rw [if_pos hcross, if_pos hdeg] at h
      exact Option.noConfusion h
    · by_cases hhit : |interpX p1 p2| ≤ STUMP_WIDTH / 2 + STUMP_RADIUS ∧
          (0 ≤ interpY p1 p2 ∧ interpY p1 p2 ≤ STUMP_HEIGHT + BAIL_HEIGHT)
      · unfold segmentImpact at h
        rw [if_pos hcross, if_neg hdeg, if_pos hhit, Option.some.injEq,
          Prod.mk.injEq] at h
        obtain ⟨hpt, hpart⟩ := h
        subst hpt
        rw [← hpart]
        unfold zoneSpec
        dsimp only
        split_ifs <;> rfl
      · exfalso
        unfold segmentImpact at h
        rw [if_pos hcross, if_neg hdeg, if_neg hhit] at h
        exact Option.noConfusion h
  · exfalso
    unfold segmentImpact at h
    rw [if_neg hcross] at h
    exact Option.noConfusion h

/-- The pair scan fires exactly when some consecutive pair of the path
passes, in the spec's vocabulary. -/
theorem scanImpact_isSome_iff :
    ∀ l : List TrajectoryPoint,
      (scanImpact l).isSome = true ↔
        ∃ i : ℕ, ∃ h : i + 1 < l.length,
          specPasses (l.get ⟨i, Nat.lt_of_succ_lt h⟩) (l.get ⟨i + 1, h⟩) := by
  intro l
  induction l with
  | nil =>
    refine iff_of_false ?_ ?_
    · rw [show scanImpact [] = Option.none from rfl]
      simp
    · rintro ⟨i, h, -⟩
      simp at h
  | cons p tl ih =>
    cases tl with
    | nil =>
      refine iff_of_false ?_ ?_
      · rw [show scanImpact [p] = Option.none from rfl]
        simp
      · rintro ⟨i, h, -⟩
        simp at h
    | cons q rest =>
      by_cases hseg : (segmentImpact p q).isSome = true
      · obtain ⟨r, hr⟩ := Option.isSome_iff_exists.mp hseg
        refine iff_of_true ?_ ?_
        · show (match segmentImpact p q with
            | some r => some r
            | Option.none => scanImpact (q :: rest)).isSome = true
          rw [hr]
          rfl
        · exact ⟨0, by simp, (segmentImpact_isSome_iff p q).mp hseg⟩
      · have hn : segmentImpact p q = Option.none := by
          rcases Option.eq_none_or_eq_some (segmentImpact p q) with h | ⟨r, hr⟩
          · exact h
          · exact absurd (by simp [hr]) hseg
        have hred : scanImpact (p :: q :: rest) = scanImpact (q :: rest) := by
          show (match segmentImpact p q with
            | some r => some r
            | Option.none => scanImpact (q :: rest)) = scanImpact (q :: rest)
          rw [hn]
        rw [hred, ih]
        constructor
        · rintro ⟨i, h, hp⟩
          exact ⟨i + 1, by simpa using h, hp⟩
        · rintro ⟨i, h, hp⟩
          cases i with
          | zero =>
            exfalso
            have hs : specPasses p q := hp
            rw [← segmentImpact_isSome_iff, hn] at hs
            simp at hs
          | succ i =>
            exact ⟨i, by simpa using h, hp⟩

/-- The resolver reports a hit exactly when the pair scan fires. -/
theorem checkWicketImpact_isHit (points : List TrajectoryPoint) :
    (checkWicketImpact points).isHit = (scanImpact points).isSome := by
  unfold checkWicketImpact
  rcases Option.eq_none_or_eq_some (scanImpact points) with h | ⟨r, hr⟩
  · rw [h]; rfl
  · obtain ⟨pt, part⟩ := r
    rw [hr]; rfl

/-- When the pair scan finds nothing, the resolver's result is the fixed
miss record. -/
theorem checkWicketImpact_of_none (points : List TrajectoryPoint)
    (h : scanImpact points = Option.none) :
    checkWicketImpact points = ⟨false, Option.none, PartHit.none⟩ := by
  unfold checkWicketImpact
  rw [h]

/-! ## Claim theorems -/

/-- NaN propagates through multiplication regardless of the other operand. -/
theorem fmul_none_left (b : FP) : fmul Option.none b = Option.none := by
  cases b <;> rfl

/-- NaN propagates through subtraction regardless of the other operand. -/
theorem fsub_none_left (b : FP) : fsub Option.none b = Option.none := by
  cases b <;> rfl

/-- NaN propagates through division regardless of the other operand. -/
theorem fdiv_none_left (b : FP) : fdiv Option.none b = Option.none := by
  cases b <;> rfl

/-- Claim C2, counterexample: `reconstruct3D` does not fail fast on a
non-finite input.  With a NaN `pixelX` (and ordinary remaining inputs) it
returns a sample — it rejects nothing — whose lateral coordinate is NaN:
the non-finite value propagates silently into the result. -/
theorem claim_C2_counterexample :
    reconstruct3D Option.none (some 10) (some 100) (some 100) (some 0.05) =
      ⟨Option.none, some 2.6, some 2.012, some 0.05⟩ := by
  norm_num [reconstruct3D, fadd, fsub, fmul, fdiv, PITCH_LENGTH]

/-- Claim C2, amended: the Position Estimator performs no input validation
at all.  It returns a sample on every input (there is no rejection path in
its body), and a NaN pixel coordinate propagates through the arithmetic to a
NaN lateral coordinate of the result, while the timestamp is echoed back
unchanged. -/
theorem claim_C2_amended (pixelY frameWidth frameHeight time : FP) :
    (reconstruct3D Option.none pixelY frameWidth frameHeight time).x = Option.none ∧
      (reconstruct3D Option.none pixelY frameWidth frameHeight time).t = time := by
  refine ⟨?_, rfl⟩
  show fmul (fsub (fmul (fdiv Option.none frameWidth) (some 2)) (some 1)) _ = Option.none
  rw [fdiv_none_left, fmul_none_left, fsub_none_left, fmul_none_left]

/-- Claim C3: a segment that is degenerate in the longitudinal axis (equal
`z` at both endpoints) never fires the resolver's loop body — no division
by zero is observable, because the source's `0 / 0 = NaN` makes the
subsequent hit-test comparisons false — and scanning simply continues with
the later segments, so the result is exactly that of scanning the rest of
the path. -/
theorem claim_C3 (p q : TrajectoryPoint) (rest : List TrajectoryPoint)
    (h : p.z = q.z) :
    segmentImpact p q = Option.none ∧
      scanImpact (p :: q :: rest) = scanImpact (q :: rest) := by
  have hseg : segmentImpact p q = Option.none := by
    unfold segmentImpact
    by_cases hcross : (p.z ≤ PITCH_LENGTH ∧ PITCH_LENGTH ≤ q.z) ∨
        (PITCH_LENGTH ≤ p.z ∧ q.z ≤ PITCH_LENGTH)
    · rw [if_pos hcross, if_pos (by rw [h, sub_self])]
    · rw [if_neg hcross]
  refine ⟨hseg, ?_⟩
  show (match segmentImpact p q with
    | some r => some r
    | Option.none => scanImpact (q :: rest)) = scanImpact (q :: rest)
  rw [hseg]

/-- Witness for C3 at a concrete degenerate segment lying exactly on the
target plane (the only degenerate shape that reaches the source's `0 / 0`). -/
theorem claim_C3_witness :
    segmentImpact ⟨0, 0, PITCH_LENGTH, 0⟩ ⟨5, 5, PITCH_LENGTH, 1⟩ = Option.none ∧
      scanImpact [⟨0, 0, PITCH_LENGTH, 0⟩, ⟨5, 5, PITCH_LENGTH, 1⟩, ⟨0, 0.3, 20, 2⟩] =
        scanImpact [⟨5, 5, PITCH_LENGTH, 1⟩, ⟨0, 0.3, 20, 2⟩] :=
  claim_C3 ⟨0, 0, PITCH_LENGTH, 0⟩ ⟨5, 5, PITCH_LENGTH, 1⟩ [⟨0, 0.3, 20, 2⟩] rfl

/-- Claim C6: with fewer than 2 samples of history, `predictTrajectory`
returns the empty sequence (the embedding is a total function, so no
exception is possible). -/
theorem claim_C6 (points : List TrajectoryPoint) (predictionTime step : ℚ)
    (h : points.length < 2) :
    predictTrajectory points predictionTime step = [] := by
  unfold predictTrajectory
  rw [if_pos h]

/-- Witness for C6 on a one-sample history. -/
theorem claim_C6_witness :
    ([⟨0, 2.2, 0, 0⟩] : List TrajectoryPoint).length < 2 ∧
      predictTrajectory [⟨0, 2.2, 0, 0⟩] 1 0.05 = [] :=
  ⟨by decide, claim_C6 [⟨0, 2.2, 0, 0⟩] 1 0.05 (by decide)⟩

/-- Claim C1, counterexample: the resolver does not act only on the first
straddling segment.  On the path below, the first segment straddles the
plane (z runs 20 to 20.2) but its interpolated crossing point is at lateral
x = 4, far outside the expanded half-width, so the claim as stated reports
no hit; the code instead keeps scanning, finds the second (returning)
crossing at (x, y) = (0, 0.3), and reports a hit. -/
theorem claim_C1_counterexample :
    crossesPlane ⟨10, 0.3, 20, 0⟩ ⟨0, 0.3, 20.2, 1⟩ ∧
      ¬ hitTest (interpX ⟨10, 0.3, 20, 0⟩ ⟨0, 0.3, 20.2, 1⟩)
          (interpY ⟨10, 0.3, 20, 0⟩ ⟨0, 0.3, 20.2, 1⟩) ∧
      (checkWicketImpact [⟨10, 0.3, 20, 0⟩, ⟨0, 0.3, 20.2, 1⟩, ⟨0, 0.3, 20, 2⟩]).isHit =
        true := by
  refine ⟨by norm_num [crossesPlane, PITCH_LENGTH], ?_, ?_⟩
  · norm_num [hitTest, interpX, interpY, interpRatio, PITCH_LENGTH, STUMP_WIDTH,
      STUMP_RADIUS, STUMP_HEIGHT, BAIL_HEIGHT, abs_of_nonneg, abs_of_nonpos]
  · norm_num [checkWicketImpact, scanImpact, segmentImpact, interpX, interpY, interpRatio,
      offStumpX, legStumpX, PITCH_LENGTH, STUMP_WIDTH, STUMP_RADIUS, STUMP_HEIGHT,
      BAIL_HEIGHT, abs_of_nonneg, abs_of_nonpos]

/-- Claim C1, amended: the resolver scans consecutive segments in order and
reports a hit on the first straddling, non-degenerate segment whose
interpolated crossing point (ratio = |plane − z1| / |z2 − z1|) passes the
hit test; a straddling segment whose crossing point fails the test is
skipped and scanning continues.  Hence a hit is reported exactly when some
consecutive segment straddles the plane, is non-degenerate in z, and its
interpolated point passes the hit test. -/
theorem claim_C1_amended (points : List TrajectoryPoint) :
    (checkWicketImpact points).isHit = true ↔
      ∃ i : ℕ, ∃ h : i + 1 < points.length,
        specPasses (points.get ⟨i, Nat.lt_of_succ_lt h⟩) (points.get ⟨i + 1, h⟩) := by
  rw [checkWicketImpact_isHit]
  exact scanImpact_isSome_iff points

/-- Witness for the amended C1 on a straight path crossing the plane at
(x, y) = (0, 0.5). -/
theorem claim_C1_witness :
    (checkWicketImpact [⟨0, 0.5, 19, 0⟩, ⟨0, 0.5, 21, 1⟩]).isHit = true :=
  (claim_C1_amended [⟨0, 0.5, 19, 0⟩, ⟨0, 0.5, 21, 1⟩]).mpr
    ⟨0, by decide, by
      norm_num [specPasses, crossesPlane, hitTest, interpX, interpY, interpRatio,
        PITCH_LENGTH, STUMP_WIDTH, STUMP_RADIUS, STUMP_HEIGHT, BAIL_HEIGHT,
        abs_of_nonneg, abs_of_nonpos]⟩

set_option maxHeartbeats 4000000 in
/-- Claim C4, counterexample: the synthetic full-trajectory regeneration
does not reflect the position on a bounce.  In the deterministic run with
analysis speed 120.72 km/h, pitch point (x = 0, z = 10.06) and impact
x = 0 (so duration = 0.6 s, dt = 1/100, vz = 503/15, vx = 0,
vy₀ = −35171/6000), no bounce occurs before frame 30, so the vertical
velocity used by frame 30's update is vy₃₀ = vy₀ − 30 · 9.81 · dt =
−52829/6000, and the integrated height for frame 31 is
y₃₀ + vy₃₀ · dt = 2943/200000 + (−52829/6000) · (1/100) = −11/150 < 0 with
z < course length.  The claim's reflection rule would emit
y = −(−11/150) · 0.75 = 11/200 ≠ 0, but the emitted frame-31 height is
exactly 0: the source clamps (`y = 0`) instead of reflecting. -/
theorem claim_C4_counterexample :
    (generateSimulatedData 120.72 0 10.06 0).getD 30 default =
        ⟨0, 2943/200000, 10.06, 0.3⟩ ∧
      (generateSimulatedData 120.72 0 10.06 0).getD 31 default =
        ⟨0, 0, 15593/1500, 0.31⟩ ∧
      (2943/200000 : ℚ) + (-52829/6000) * (1/100) < 0 ∧
      (0 : ℚ) ≠ -((2943/200000 : ℚ) + (-52829/6000) * (1/100)) * 0.75 := by
  refine ⟨?_, ?_, by norm_num, by norm_num⟩ <;>
    norm_num [generateSimulatedData, simLoop, simStep, PITCH_LENGTH, List.getD]

/-- Claim C4, amended: at the Trajectory Predictor call site the bounce is
the claimed reflection with restitution 0.6 (position y := −y·0.6 and
velocity vy := −vy·0.6, applied to the freshly integrated values); at the
synthetic regeneration call site the bounce instead clamps the position to
y = 0 while damping the reversed velocity by 0.75, and it fires only while
the longitudinal position is still short of the course length — beyond it
the negative height is kept unchanged. -/
theorem claim_C4_amended :
    (∀ (vx vz step tLimit : ℚ) (n : ℕ) (s : PredState),
        s.t < tLimit → s.z < PITCH_LENGTH + 2 →
        s.y + (s.vy - GRAVITY * step) * step < 0 →
        (predictLoop vx vz step tLimit (n + 1) s).head? =
          some ⟨s.x + vx * step, -(s.y + (s.vy - GRAVITY * step) * step) * 0.6,
            s.z + vz * step, s.t + step⟩) ∧
      (∀ (vx vz step : ℚ) (s : PredState),
          s.y + (s.vy - GRAVITY * step) * step < 0 →
          (predictStep vx vz step s).vy = -(s.vy - GRAVITY * step) * 0.6) ∧
      (∀ (vx vz dt : ℚ) (s : SimState),
          s.y + s.vy * dt < 0 → s.z + vz * dt < PITCH_LENGTH →
          simStep vx vz dt s =
            ⟨s.i + 1, s.x + vx * dt, 0, s.z + vz * dt, -(s.vy - 9.81 * dt) * 0.75⟩) ∧
      (∀ (vx vz dt : ℚ) (s : SimState),
          s.y + s.vy * dt < 0 → PITCH_LENGTH ≤ s.z + vz * dt →
          simStep vx vz dt s =
            ⟨s.i + 1, s.x + vx * dt, s.y + s.vy * dt, s.z + vz * dt, s.vy - 9.81 * dt⟩) := by
  refine ⟨?_, ?_, ?_, ?_⟩
  · intro vx vz step tLimit n s h1 h2 h3
    have hs : predictStep vx vz step s =
        ⟨s.t + step, s.x + vx * step, -(s.y + (s.vy - GRAVITY * step) * step) * 0.6,
          s.z + vz * step, -(s.vy - GRAVITY * step) * 0.6⟩ := by
      unfold predictStep
      dsimp only
      rw [if_pos h3]
    rw [predictLoop, if_pos ⟨h1, h2⟩, List.head?_cons, hs]
    rfl
  · intro vx vz step s h
    unfold predictStep
    dsimp only
    rw [if_pos h]
  · intro vx vz dt s h1 h2
    unfold simStep
    dsimp only
    rw [if_pos ⟨h1, h2⟩]
  · intro vx vz dt s h1 h2
    unfold simStep
    dsimp only
    rw [if_neg (fun hc => absurd hc.2 (not_lt.mpr h2))]

/-- Witness for the amended C4 at concrete bouncing states of both call
sites. -/
theorem claim_C4_witness :
    (predictLoop 0 1 1 1 1 ⟨0, 0, 0, 0, 0⟩).head? =
        some ⟨0 + 0 * 1, -(0 + (0 - GRAVITY * 1) * 1) * 0.6, 0 + 1 * 1, 0 + 1⟩ ∧
      simStep 0 1 1 ⟨0, 0, 0, 0, -1⟩ =
        ⟨0 + 1, 0 + 0 * 1, 0, 0 + 1 * 1, -(-1 - 9.81 * 1) * 0.75⟩ ∧
      simStep 0 1 1 ⟨0, 0, 0, 20, -1⟩ =
        ⟨0 + 1, 0 + 0 * 1, 0 + -1 * 1, 20 + 1 * 1, -1 - 9.81 * 1⟩ :=
  ⟨claim_C4_amended.1 0 1 1 1 0 ⟨0, 0, 0, 0, 0⟩ (by norm_num)
      (by norm_num [PITCH_LENGTH]) (by norm_num [GRAVITY]),
    claim_C4_amended.2.2.1 0 1 1 ⟨0, 0, 0, 0, -1⟩ (by norm_num)
      (by norm_num [PITCH_LENGTH]),
    claim_C4_amended.2.2.2 0 1 1 ⟨0, 0, 0, 20, -1⟩ (by norm_num)
      (by norm_num [PITCH_LENGTH])⟩

/-- Claim C5: for a history of at least 2 samples with strictly increasing
timestamps and positive horizon and step, the predicted sequence has
non-decreasing timestamps (in fact strictly increasing, which implies the
claim), every predicted timestamp is strictly after the last input
timestamp, and the function is deterministic (it is a pure function of its
arguments, so two calls with identical inputs give identical results). -/
theorem claim_C5 (points : List TrajectoryPoint) (predictionTime step : ℚ)
    (hlen : 2 ≤ points.length)
    (hinc : List.Pairwise (fun a b : TrajectoryPoint => a.t < b.t) points)
    (hhor : 0 < predictionTime) (hstep : 0 < step) :
    List.Pairwise (fun a b : TrajectoryPoint => a.t ≤ b.t)
        (predictTrajectory points predictionTime step) ∧
      (∀ q ∈ predictTrajectory points predictionTime step,
          (points.getD (points.length - 1) default).t < q.t) ∧
      predictTrajectory points predictionTime step =
        predictTrajectory points predictionTime step := by
  have hne : ¬ points.length < 2 := by omega
  refine ⟨?_, ?_, rfl⟩
  · unfold predictTrajectory
    rw [if_neg hne]
    exact (predictLoop_pairwise_t hstep _ _).imp (fun h => le_of_lt h)
  · intro q hq
    unfold predictTrajectory at hq
    rw [if_neg hne] at hq
    exact predictLoop_mem_t hstep _ _ q hq

/-- Witness for C5 on the two-sample scenario history. -/
theorem claim_C5_witness :
    List.Pairwise (fun a b : TrajectoryPoint => a.t ≤ b.t)
      (predictTrajectory [⟨0, 2.2, 0, 0⟩, ⟨0.02, 2, 1, 0.05⟩] 0.6 0.05) :=
  (claim_C5 [⟨0, 2.2, 0, 0⟩, ⟨0.02, 2, 1, 0.05⟩] 0.6 0.05 (by decide)
    (by norm_num [List.pairwise_cons]) (by norm_num) (by norm_num)).1

/-- Claim C7: whenever the resolver's loop body fires, the reported zone is
the priority classification of the crossing point — Top (`bails`) when the
vertical coordinate exceeds the target height, else right edge (`off`),
left edge (`leg`) within tolerance, defaulting to Center (`middle`);
in particular a crossing at (x, y) = (0, 0.3) is a hit in zone Center, and
a crossing above the target height but within the clearance band is a hit
in zone Top. -/
theorem claim_C7 :
    (∀ (p1 p2 : TrajectoryPoint) (pt : Vector3D) (part : PartHit),
        segmentImpact p1 p2 = some (pt, part) → part = zoneSpec pt.x pt.y) ∧
      checkWicketImpact [⟨0, 0.3, 20, 0⟩, ⟨0, 0.3, 20.6, 0.1⟩] =
        ⟨true, some ⟨0, 0.3, PITCH_LENGTH⟩, PartHit.middle⟩ ∧
      checkWicketImpact [⟨0, 0.72, 20, 0⟩, ⟨0, 0.72, 20.6, 0.1⟩] =
        ⟨true, some ⟨0, 0.72, PITCH_LENGTH⟩, PartHit.bails⟩ := by
  refine ⟨segmentImpact_part_eq_zoneSpec, ?_, ?_⟩ <;>
    norm_num [checkWicketImpact, scanImpact, segmentImpact, interpX, interpY, interpRatio,
      offStumpX, legStumpX, PITCH_LENGTH, STUMP_WIDTH, STUMP_RADIUS, STUMP_HEIGHT,
      BAIL_HEIGHT, abs_of_nonneg, abs_of_nonpos]

/-- Witness for C7: the Center crossing of the scenario, pushed through the
classification equation. -/
theorem claim_C7_witness : PartHit.middle = zoneSpec 0 0.3 :=
  claim_C7.1 ⟨0, 0.3, 20, 0⟩ ⟨0, 0.3, 20.6, 0.1⟩ ⟨0, 0.3, PITCH_LENGTH⟩ PartHit.middle
    (by norm_num [segmentImpact, interpX, interpY, interpRatio, offStumpX, legStumpX,
      PITCH_LENGTH, STUMP_WIDTH, STUMP_RADIUS, STUMP_HEIGHT, BAIL_HEIGHT,
      abs_of_nonneg, abs_of_nonpos])

/-- Claim C8: when no consecutive segment straddles the target plane — and
more generally when no consecutive segment both straddles it and passes the
hit test at its interpolated crossing point — the resolver returns the miss
record: `isHit = false`, part `none`, and no impact point; in particular a
single crossing at lateral x = 0.3 (outside the expanded half-width) is a
miss. -/
theorem claim_C8 :
    (∀ points : List TrajectoryPoint,
        (∀ (i : ℕ) (h : i + 1 < points.length),
          ¬ crossesPlane (points.get ⟨i, Nat.lt_of_succ_lt h⟩) (points.get ⟨i + 1, h⟩)) →
        checkWicketImpact points = ⟨false, Option.none, PartHit.none⟩) ∧
      (∀ points : List TrajectoryPoint,
          (∀ (i : ℕ) (h : i + 1 < points.length),
            ¬ specPasses (points.get ⟨i, Nat.lt_of_succ_lt h⟩) (points.get ⟨i + 1, h⟩)) →
          checkWicketImpact points = ⟨false, Option.none, PartHit.none⟩) ∧
      checkWicketImpact [⟨0.3, 0.3, 20, 0⟩, ⟨0.3, 0.3, 20.6, 0.1⟩] =
        ⟨false, Option.none, PartHit.none⟩ := by
  have main : ∀ points : List TrajectoryPoint,
      (∀ (i : ℕ) (h : i + 1 < points.length),
        ¬ specPasses (points.get ⟨i, Nat.lt_of_succ_lt h⟩) (points.get ⟨i + 1, h⟩)) →
      checkWicketImpact points = ⟨false, Option.none, PartHit.none⟩ := by
    intro points hfail
    apply checkWicketImpact_of_none
    rcases Option.eq_none_or_eq_some (scanImpact points) with h | ⟨r, hr⟩
    · exact h
    · exfalso
      have hsome : (scanImpact points).isSome = true := by simp [hr]
      obtain ⟨i, h, hp⟩ := (scanImpact_isSome_iff points).mp hsome
      exact hfail i h hp
  refine ⟨?_, main, ?_⟩
  · intro points hfail
    exact main points (fun i h hp => absurd hp.1 (hfail i h))
  · norm_num [checkWicketImpact, scanImpact, segmentImpact, interpX, interpY, interpRatio,
      offStumpX, legStumpX, PITCH_LENGTH, STUMP_WIDTH, STUMP_RADIUS, STUMP_HEIGHT,
      BAIL_HEIGHT, abs_of_nonneg, abs_of_nonpos]

/-- Witness for C8 on a short path that never reaches the target plane. -/
theorem claim_C8_witness :
    checkWicketImpact [⟨0, 2.2, 0, 0⟩, ⟨0, 2, 1, 0.05⟩] =
      ⟨false, Option.none, PartHit.none⟩ :=
  claim_C8.1 [⟨0, 2.2, 0, 0⟩, ⟨0, 2, 1, 0.05⟩] (by
    intro i h
    simp only [List.length_cons, List.length_nil] at h
    have hi : i = 0 := by omega
    subst hi
    show ¬ crossesPlane ⟨0, 2.2, 0, 0⟩ ⟨0, 2, 1, 0.05⟩
    norm_num [crossesPlane, PITCH_LENGTH])

set_option maxHeartbeats 4000000 in
/-- Claim C9: on the scenario history
[(0, 2.2, 0, t=0), (0.02, 2, 1, t=0.05)] with horizon 0.6 s and step
0.05 s, the predictor emits exactly floor(0.6/0.05) = 12 further samples
with strictly increasing longitudinal coordinate; and in general a sample
is followed by another only if it still satisfied the loop guard, i.e.
emission stops once the time passes the horizon limit or the longitudinal
position passes the course length plus the fixed 2 m margin. -/
theorem claim_C9 :
    ((predictTrajectory [⟨0, 2.2, 0, 0⟩, ⟨0.02, 2, 1, 0.05⟩] 0.6 0.05).length = 12 ∧
      List.Pairwise (fun a b : TrajectoryPoint => a.z < b.z)
        (predictTrajectory [⟨0, 2.2, 0, 0⟩, ⟨0.02, 2, 1, 0.05⟩] 0.6 0.05)) ∧
      (∀ (points : List TrajectoryPoint) (predictionTime step : ℚ) (i : ℕ)
          (q : TrajectoryPoint),
        (predictTrajectory points predictionTime step).get? (i + 1) ≠ Option.none →
        (predictTrajectory points predictionTime step).get? i = some q →
        q.t < (points.getD (points.length - 1) default).t + predictionTime ∧
          q.z < PITCH_LENGTH + 2) := by
  constructor
  · constructor <;>
      norm_num [predictTrajectory, predictFuel, predictLoop, predictStep,
        PredState.toPoint, PITCH_LENGTH, GRAVITY, List.getD, List.pairwise_cons]
  · intro points predictionTime step i q h1 h2
    by_cases hlen : points.length < 2
    · exfalso
      unfold predictTrajectory at h2
      rw [if_pos hlen] at h2
      simp at h2
    · unfold predictTrajectory at h1 h2
      rw [if_neg hlen] at h1 h2
      exact predictLoop_guard _ _ _ _ _ _ i q h1 h2

/-- Witness for C9's stop condition at the first predicted sample of the
scenario. -/
theorem claim_C9_witness :
    (⟨0.04, 1.775475, 2, 0.1⟩ : TrajectoryPoint).t <
        (([⟨0, 2.2, 0, 0⟩, ⟨0.02, 2, 1, 0.05⟩] : List TrajectoryPoint).getD 1 default).t
          + 0.6 ∧
      (⟨0.04, 1.775475, 2, 0.1⟩ : TrajectoryPoint).z < PITCH_LENGTH + 2 :=
  claim_C9.2 [⟨0, 2.2, 0, 0⟩, ⟨0.02, 2, 1, 0.05⟩] 0.6 0.05 0 ⟨0.04, 1.775475, 2, 0.1⟩
    (by
      intro h
      norm_num [predictTrajectory, predictFuel, predictLoop, predictStep,
        PredState.toPoint, PITCH_LENGTH, GRAVITY, List.getD] at h
      exact Option.noConfusion h)
    (by
      norm_num [predictTrajectory, predictFuel, predictLoop, predictStep,
        PredState.toPoint, PITCH_LENGTH, GRAVITY, List.getD])

/-- Claim C10: every sample emitted by the predictor has non-negative
height — the bounce reflection applied immediately after each integration
step, before the sample is pushed, keeps the returned path at or above
ground level. -/
theorem claim_C10 (points : List TrajectoryPoint) (predictionTime step : ℚ)
    (hstep : 0 < step) :
    ∀ q ∈ predictTrajectory points predictionTime step, 0 ≤ q.y := by
  intro q hq
  by_cases hlen : points.length < 2
  · exfalso
    unfold predictTrajectory at hq
    rw [if_pos hlen] at hq
    simp at hq
  · unfold predictTrajectory at hq
    rw [if_neg hlen] at hq
    exact predictLoop_y_nonneg _ _ _ _ _ _ q hq

set_option maxHeartbeats 1000000 in
/-- Witness for C10 at the first predicted sample of the scenario. -/
theorem claim_C10_witness :
    (0 : ℚ) < 0.05 ∧ 0 ≤ (⟨0.04, 1.775475, 2, 0.1⟩ : TrajectoryPoint).y :=
  ⟨by norm_num,
    claim_C10 [⟨0, 2.2, 0, 0⟩, ⟨0.02, 2, 1, 0.05⟩] 0.6 0.05 (by norm_num)
      ⟨0.04, 1.775475, 2, 0.1⟩
      (by
        norm_num [predictTrajectory, predictFuel, predictLoop, predictStep,
          PredState.toPoint, PITCH_LENGTH, GRAVITY, List.getD])⟩

end Cricket
